import Mathlib

/-!
Verification of `ai_scientist/lab_notebook.py` (`create_lab_notebook`).

Strings are modelled as `List Char`.  The regex extraction
`re.search(r"```markdown(.*?)```", s, re.DOTALL)` is modelled by
`reSearchMarkdown`: a left-to-right scan that, at the first position where
the literal `"```markdown"` matches, takes the lazily shortest inner text
followed by a closing `"```"`; if no closing fence follows a candidate
opening, the scan moves on to the next position, exactly as `re.search`
does.
-/

namespace LabNotebook

abbrev Str := List Char

/-- The opening fence of the regex pattern, the literal before the capture group. -/
def openFence : Str := "```markdown".toList

/-- The closing fence of the regex pattern, the literal after the capture group. -/
def closeFence : Str := "```".toList

/-- The characters removed by Python `str.strip()`. -/
def pyIsSpace (c : Char) : Bool :=
  c == ' ' || c == '\t' || c == '\n' || c == '\r' || c == '\x0b' || c == '\x0c'

/-- Python `str.strip()`: drop leading and trailing whitespace. -/
def pyStrip (s : Str) : Str :=
  ((s.dropWhile pyIsSpace).reverse.dropWhile pyIsSpace).reverse

/-- Lazy search for the closing fence: returns the text before the earliest
occurrence of `closeFence`, or `none` when no occurrence exists.  This models
the non-greedy group `(.*?)` followed by the closing literal. -/
def findClose : Str → Option Str
  | [] => none
  | c :: rest =>
    if closeFence.isPrefixOf (c :: rest) then some []
    else (findClose rest).map (fun l => c :: l)

/-- Model of `re.search(r"```markdown(.*?)```", s, re.DOTALL).group(1)`:
scan positions left to right; at a position where the opening literal
matches, try the lazy inner group; if no closing fence follows, resume the
scan at the next position. -/
def reSearchMarkdown : Str → Option Str
  | [] => none
  | c :: rest =>
    if openFence.isPrefixOf (c :: rest) then
      match findClose ((c :: rest).drop 11) with
      | some inner => some inner
      | none => reSearchMarkdown rest
    else reSearchMarkdown rest

/-- Specification-side description: the inner content of the first fenced
markdown block, namely the text between the first occurrence of the opening
fence and the next closing fence after it. -/
def firstBlockInner : Str → Option Str
  | [] => none
  | c :: rest =>
    if openFence.isPrefixOf (c :: rest) then findClose ((c :: rest).drop 11)
    else firstBlockInner rest

/-- The combined extraction as the source performs it:
`match.group(1).strip()`. -/
def extractNotebook (s : Str) : Option Str :=
  (reSearchMarkdown s).map pyStrip

/-- The response contains a fenced markdown block: an opening fence at some
position `i` and a closing fence at some position at or after the end of the
opening literal. -/
def containsFencedBlock (s : Str) : Prop :=
  ∃ i j, openFence.isPrefixOf (s.drop i) = true ∧ i + 11 ≤ j ∧
    closeFence.isPrefixOf (s.drop j) = true

lemma isPrefixOf_append_iff : ∀ (p l : Str), p.isPrefixOf l = true ↔ ∃ t, l = p ++ t
  | [], l => by
    simp [List.isPrefixOf]
  | a :: p, [] => by
    simp [List.isPrefixOf]
  | a :: p, b :: l => by
    simp only [List.isPrefixOf, Bool.and_eq_true, beq_iff_eq, List.cons_append,
      List.cons.injEq]
    constructor
    · rintro ⟨rfl, h⟩
      obtain ⟨t, rfl⟩ := (isPrefixOf_append_iff p l).1 h
      exact ⟨t, rfl, rfl⟩
    · rintro ⟨t, rfl, rfl⟩
      exact ⟨rfl, (isPrefixOf_append_iff p (p ++ t)).2 ⟨t, rfl⟩⟩

lemma isPrefixOf_trans {p q l : Str} (h1 : p.isPrefixOf q = true)
    (h2 : q.isPrefixOf l = true) : p.isPrefixOf l = true := by
  obtain ⟨t1, rfl⟩ := (isPrefixOf_append_iff p q).1 h1
  obtain ⟨t2, rfl⟩ := (isPrefixOf_append_iff _ _).1 h2
  exact (isPrefixOf_append_iff p _).2 ⟨t1 ++ t2, by simp⟩

lemma isPrefixOf_append_getElem {p l t : Str} (h : p.isPrefixOf (l ++ t) = true)
    (k : Nat) (hkp : k < p.length) (hkl : k < l.length) : p[k]? = l[k]? := by
  obtain ⟨u, hu⟩ := (isPrefixOf_append_iff _ _).1 h
  calc p[k]? = (p ++ u)[k]? := (List.getElem?_append_left hkp).symm
    _ = (l ++ t)[k]? := by rw [← hu]
    _ = l[k]? := List.getElem?_append_left hkl

lemma closeFence_not_at (j : Nat) (h1 : 1 ≤ j) (h2 : j ≤ 10) (t : Str) :
    closeFence.isPrefixOf ((openFence ++ t).drop j) = false := by
  rw [List.drop_append_of_le_length (by have : openFence.length = 11 := rfl; omega)]
  interval_cases j
  · cases hb : closeFence.isPrefixOf (openFence.drop 1 ++ t) with
    | false => rfl
    | true => exact absurd (isPrefixOf_append_getElem hb 2 (by decide) (by decide)) (by decide)
  · cases hb : closeFence.isPrefixOf (openFence.drop 2 ++ t) with
    | false => rfl
    | true => exact absurd (isPrefixOf_append_getElem hb 1 (by decide) (by decide)) (by decide)
  · cases hb : closeFence.isPrefixOf (openFence.drop 3 ++ t) with
    | false => rfl
    | true => exact absurd (isPrefixOf_append_getElem hb 0 (by decide) (by decide)) (by decide)
  · cases hb : closeFence.isPrefixOf (openFence.drop 4 ++ t) with
    | false => rfl
    | true => exact absurd (isPrefixOf_append_getElem hb 0 (by decide) (by decide)) (by decide)
  · cases hb : closeFence.isPrefixOf (openFence.drop 5 ++ t) with
    | false => rfl
    | true => exact absurd (isPrefixOf_append_getElem hb 0 (by decide) (by decide)) (by decide)
  · cases hb : closeFence.isPrefixOf (openFence.drop 6 ++ t) with
    | false => rfl
    | true => exact absurd (isPrefixOf_append_getElem hb 0 (by decide) (by decide)) (by decide)
  · cases hb : closeFence.isPrefixOf (openFence.drop 7 ++ t) with
    | false => rfl
    | true => exact absurd (isPrefixOf_append_getElem hb 0 (by decide) (by decide)) (by decide)
  · cases hb : closeFence.isPrefixOf (openFence.drop 8 ++ t) with
    | false => rfl
    | true => exact absurd (isPrefixOf_append_getElem hb 0 (by decide) (by decide)) (by decide)
  · cases hb : closeFence.isPrefixOf (openFence.drop 9 ++ t) with
    | false => rfl
    | true => exact absurd (isPrefixOf_append_getElem hb 0 (by decide) (by decide)) (by decide)
  · cases hb : closeFence.isPrefixOf (openFence.drop 10 ++ t) with
    | false => rfl
    | true => exact absurd (isPrefixOf_append_getElem hb 0 (by decide) (by decide)) (by decide)

lemma openFence_far {s : Str} (h0 : openFence.isPrefixOf s = true) (j : Nat)
    (h1 : 1 ≤ j) (h2 : j ≤ 10) : openFence.isPrefixOf (s.drop j) = false := by
  obtain ⟨t, rfl⟩ := (isPrefixOf_append_iff _ _).1 h0
  cases hb : openFence.isPrefixOf ((openFence ++ t).drop j) with
  | false => rfl
  | true =>
    have hc : closeFence.isPrefixOf ((openFence ++ t).drop j) = true :=
      isPrefixOf_trans (by decide) hb
    rw [closeFence_not_at j h1 h2 t] at hc
    exact Bool.noConfusion hc

lemma findClose_eq_none_iff (t : Str) :
    findClose t = none ↔ ∀ k, closeFence.isPrefixOf (t.drop k) = false := by
  induction t with
  | nil =>
    constructor
    · intro _ k
      rw [List.drop_nil]
      decide
    · intro _
      rfl
  | cons c r ih =>
    by_cases hc : closeFence.isPrefixOf (c :: r) = true
    · simp only [findClose, hc, if_true]
      constructor
      · intro h
        exact Option.noConfusion h
      · intro hall
        have h0 := hall 0
        rw [List.drop_zero, hc] at h0
        exact Bool.noConfusion h0
    · have hcf : closeFence.isPrefixOf (c :: r) = false := by
        cases hb : closeFence.isPrefixOf (c :: r) with
        | false => rfl
        | true => exact absurd hb hc
      simp only [findClose, hcf, Bool.false_eq_true, if_false]
      constructor
      · intro h k
        have hr : findClose r = none := by
          cases hfr : findClose r with
          | none => rfl
          | some v =>
            rw [hfr] at h
            exact Option.noConfusion h
        match k with
        | 0 =>
          rw [List.drop_zero]
          exact hcf
        | k + 1 =>
          rw [List.drop_succ_cons]
          exact (ih.1 hr) k
      · intro hall
        have hr : findClose r = none := by
          refine ih.2 ?_
          intro k
          have hk := hall (k + 1)
          rwa [List.drop_succ_cons] at hk
        rw [hr]
        rfl

lemma reSearch_some {s v : Str} (h : reSearchMarkdown s = some v) :
    ∃ i, openFence.isPrefixOf (s.drop i) = true ∧
      findClose ((s.drop i).drop 11) = some v := by
  induction s with
  | nil => exact absurd h (by intro hh; exact Option.noConfusion hh)
  | cons c r ih =>
    by_cases ho : openFence.isPrefixOf (c :: r) = true
    · rw [reSearchMarkdown] at h
      simp only [ho, if_true] at h
      cases hfc : findClose ((c :: r).drop 11) with
      | some inner =>
        rw [hfc] at h
        refine ⟨0, ?_, ?_⟩
        · rw [List.drop_zero]
          exact ho
        · rw [List.drop_zero, hfc]
          exact h
      | none =>
        rw [hfc] at h
        obtain ⟨i, hi1, hi2⟩ := ih h
        refine ⟨i + 1, ?_, ?_⟩
        · rwa [List.drop_succ_cons]
        · rwa [List.drop_succ_cons]
    · have hof : openFence.isPrefixOf (c :: r) = false := by
        cases hb : openFence.isPrefixOf (c :: r) with
        | false => rfl
        | true => exact absurd hb ho
      rw [reSearchMarkdown] at h
      simp only [hof, Bool.false_eq_true, if_false] at h
      obtain ⟨i, hi1, hi2⟩ := ih h
      refine ⟨i + 1, ?_, ?_⟩
      · rwa [List.drop_succ_cons]
      · rwa [List.drop_succ_cons]

theorem reSearch_eq_firstBlock (s : Str) : reSearchMarkdown s = firstBlockInner s := by
  induction s with
  | nil => rfl
  | cons c r ih =>
    by_cases ho : openFence.isPrefixOf (c :: r) = true
    · rw [reSearchMarkdown, firstBlockInner]
      simp only [ho, if_true]
      cases hfc : findClose ((c :: r).drop 11) with
      | some inner => rfl
      | none =>
        cases hr : reSearchMarkdown r with
        | none => rfl
        | some v =>
          exfalso
          obtain ⟨i, hi1, hi2⟩ := reSearch_some hr
          by_cases hsmall : i + 1 ≤ 10
          · have hfar := openFence_far ho (i + 1) (Nat.succ_le_succ (Nat.zero_le i)) hsmall
            rw [List.drop_succ_cons] at hfar
            rw [hi1] at hfar
            exact Bool.noConfusion hfar
          · have hclose : closeFence.isPrefixOf (r.drop i) = true :=
              isPrefixOf_trans (by decide) hi1
            have h11 : (c :: r).drop 11 = r.drop 10 := rfl
            have hiff := (findClose_eq_none_iff ((c :: r).drop 11)).1 hfc (i - 10)
            rw [h11, List.drop_drop] at hiff
            have harith : 10 + (i - 10) = i := by omega
            rw [harith, hclose] at hiff
            exact Bool.noConfusion hiff
    · have hof : openFence.isPrefixOf (c :: r) = false := by
        cases hb : openFence.isPrefixOf (c :: r) with
        | false => rfl
        | true => exact absurd hb ho
      rw [reSearchMarkdown, firstBlockInner]
      simp only [hof, Bool.false_eq_true, if_false]
      exact ih

lemma firstBlock_isSome {s : Str} (h : containsFencedBlock s) :
    (firstBlockInner s).isSome = true := by
  induction s with
  | nil =>
    obtain ⟨i, j, hoi, _, _⟩ := h
    rw [List.drop_nil] at hoi
    exact absurd hoi (by decide)
  | cons c r ih =>
    obtain ⟨i, j, hoi, hij, hcj⟩ := h
    by_cases ho : openFence.isPrefixOf (c :: r) = true
    · rw [firstBlockInner]
      simp only [ho, if_true]
      cases hfc : findClose ((c :: r).drop 11) with
      | some inner => rfl
      | none =>
        exfalso
        have hj11 : 11 ≤ j := by omega
        have hiff := (findClose_eq_none_iff ((c :: r).drop 11)).1 hfc (j - 11)
        rw [List.drop_drop] at hiff
        have harith : 11 + (j - 11) = j := by omega
        rw [harith, hcj] at hiff
        exact Bool.noConfusion hiff
    · have hof : openFence.isPrefixOf (c :: r) = false := by
        cases hb : openFence.isPrefixOf (c :: r) with
        | false => rfl
        | true => exact absurd hb ho
      rw [firstBlockInner]
      simp only [hof, Bool.false_eq_true, if_false]
      have hi1 : 1 ≤ i := by
        rcases Nat.eq_zero_or_pos i with hz | hp
        · exfalso
          rw [hz, List.drop_zero] at hoi
          rw [hoi] at hof
          exact Bool.noConfusion hof
        · exact hp
      obtain ⟨ii, rfl⟩ : ∃ ii, i = ii + 1 := ⟨i - 1, by omega⟩
      obtain ⟨jj, rfl⟩ : ∃ jj, j = jj + 1 := ⟨j - 1, by omega⟩
      rw [List.drop_succ_cons] at hoi
      rw [List.drop_succ_cons] at hcj
      exact ih ⟨ii, jj, hoi, by omega, hcj⟩

/-!
Model of the whole `create_lab_notebook` run.  The filesystem inputs and the
external collaborators (text LLM, vision model, client construction) are an
environment; raising calls are modelled with `Except`.  The code before the
`try:` block (cleanup of the notebook folder, `shutil.copytree` of the
figures directory) is modelled outside the caught region, exactly as in the
source, so a missing figures directory raises and propagates.
-/

/-- An abstract parsed JSON value: the code only ever treats the loaded
summaries opaquely (it serializes them back into the prompt), so we keep the
parsed value abstract, with the empty object distinguished because the code
substitutes `{}` for missing or malformed files. -/
inductive JsonVal where
  | emptyObj : JsonVal
  | val : Str → JsonVal
deriving DecidableEq

/-- The only exception that can escape `create_lab_notebook`: the
`shutil.copytree` call on a missing figures directory, which sits before the
`try:` block. -/
inductive PyExn where
  | fileNotFound : PyExn
deriving DecidableEq

/-- Events printed by the script. -/
inductive LogEvent where
  | summaryWarning : Str → LogEvent
  | vlmException : LogEvent
  | notebookSaved : LogEvent
  | llmDone : LogEvent
  | noChanges : Nat → LogEvent
  | topException : LogEvent
deriving DecidableEq

/-- The state of the `notebook/` output folder. -/
structure NotebookDir where
  labNotebook : Option Str
  figuresCopied : Option (List Str)
deriving DecidableEq

/-- The values substituted into the `notebook_prompt` template. -/
structure PromptParts where
  ideaText : Str
  baselineSummary : JsonVal
  researchSummary : JsonVal
  ablationSummary : JsonVal
  aggregatorCode : Str
  plotList : Str
  currentNotebook : Str
  plotDescriptions : Str
deriving DecidableEq

/-- The environment: filesystem contents under `base_folder` and the
behaviour of the external collaborators.  A summary file field is `none`
when the file is missing, `some none` when it exists but is not valid JSON,
and `some (some v)` when it parses to `v`.  The per-figure review oracle is
`none` for a falsy `review_data` and `some none` for a review dict without
an `Img_description` key. -/
structure Env where
  preNotebook : Option Str
  figures : Option (List Str)
  researchIdea : Option Str
  ideaMd : Option Str
  aggregator : Option Str
  baselineSummary : Option (Option JsonVal)
  researchSummary : Option (Option JsonVal)
  ablationSummary : Option (Option JsonVal)
  vlm : Except Unit (Str → Option (Option Str))
  clientOk : Bool
  llmFirst : Except Unit Str
  llmReflect : Nat → Except Unit Str

/-- Lines 144-148: delete the notebook folder when present, then recreate
it empty. -/
def cleanupNotebookDir (pre : Option Str) : NotebookDir :=
  match pre with
  | some _ => { labNotebook := none, figuresCopied := none }
  | none => { labNotebook := none, figuresCopied := none }

/-- The nested `save_notebook` helper (lines 273-277): open the single
notebook file for writing and replace its content. -/
def saveNotebook (content : Str) (d : NotebookDir) : NotebookDir :=
  { d with labNotebook := some content }

/-- Lines 193-197: read `notebook/lab_notebook.md` when it exists, else use
the empty string. -/
def readNotebookFile (d : NotebookDir) : Str :=
  match d.labNotebook with
  | some c => c
  | none => []

/-- Lines 154-164: `research_idea.md`, else `idea.md`, else empty. -/
def loadIdeaText (e : Env) : Str :=
  match e.researchIdea with
  | some t => t
  | none =>
    match e.ideaMd with
    | some t => t
    | none => []

/-- Lines 174-186: one summary file; the Bool records whether the
malformed-JSON warning was printed. -/
def loadSummary (file : Option (Option JsonVal)) : JsonVal × Bool :=
  match file with
  | none => (JsonVal.emptyObj, false)
  | some none => (JsonVal.emptyObj, true)
  | some (some v) => (v, false)

/-- Lines 207-214: the aggregator script, or the placeholder text. -/
def loadAggregator (agg : Option Str) : Str :=
  match agg with
  | some c => c
  | none => "No aggregator script found.".toList

/-- Line 204: `fplot.lower().endswith(".png")`. -/
def endsWithPngCI (f : Str) : Bool :=
  (".png".toList).isSuffixOf (f.map Char.toLower)

/-- Lines 199-205: filenames of the figures directory ending in `.png`,
in directory-listing order. -/
def gatherPlotNames (figures : Option (List Str)) : List Str :=
  match figures with
  | none => []
  | some files => files.filter endsWithPngCI

/-- Lines 228-239: the description for one figure, via `review_data` and
`review_data.get("Img_description", "No description found")`. -/
def descFor (reviews : Str → Option (Option Str)) (f : Str) : Str :=
  match reviews f with
  | some (some d) => d
  | some none => "No description found".toList
  | none => "No description found".toList

/-- Lines 216-245: the VLM block with its own try/except; the Bool records
whether the exception branch printed. -/
def plotDescriptionsStr (vlm : Except Unit (Str → Option (Option Str)))
    (plots : List Str) : Str × Bool :=
  match vlm with
  | Except.error _ => ("No descriptions available.".toList, true)
  | Except.ok reviews =>
    (List.intercalate ("\n".toList)
      (plots.map (fun f => f ++ (": ".toList) ++ descFor reviews f)), false)

/-- Python's `needle in haystack` on strings: some position of `haystack`
starts with `needle`. -/
def containsSub (pat : Str) : Str → Bool
  | [] => pat.isPrefixOf []
  | c :: rest => pat.isPrefixOf (c :: rest) || containsSub pat rest

/-- The sentinel phrase checked on each reflection response (line 307). -/
def sentinelDone : Str := "I am done".toList

/-- What happened in one iteration of the reflection loop. -/
inductive StepEvent where
  | raised
  | sentinelStop
  | extractFail
  | nochangeStop
  | saved
deriving DecidableEq

/-- How the reflection loop ended. -/
inductive LoopExit where
  | completed
  | broke
  | returnedFalse
  | raised
deriving DecidableEq

/-- Result of the reflection loop: the trace records, per iteration entered,
the notebook file content at its start and the event; `finalFile` is the
file content when the loop ends, `saves` the contents written by
`save_notebook` during the loop. -/
structure LoopRes where
  trace : List (Str × StepEvent)
  finalFile : Str
  saves : List Str
  log : List LogEvent
  exit : LoopExit
deriving DecidableEq

/-- Lines 282-327, the reflection loop.  `resp` is the FIRST LLM response:
line 313 of the source searches `response`, not `reflection_response`, so
the loop re-extracts from the first response on every pass.  `i` is the
Python loop index, `fuel` the remaining iterations of
`range(n_notebook_reflections)`. -/
def reflLoop (resp : Str) (reflect : Nat → Except Unit Str) :
    Nat → Nat → Str → LoopRes
  | 0, _, file => ⟨[], file, [], [], LoopExit.completed⟩
  | fuel + 1, i, file =>
    match reflect i with
    | Except.error _ => ⟨[(file, StepEvent.raised)], file, [], [], LoopExit.raised⟩
    | Except.ok rresp =>
      if containsSub sentinelDone rresp then
        ⟨[(file, StepEvent.sentinelStop)], file, [], [LogEvent.llmDone], LoopExit.broke⟩
      else
        match reSearchMarkdown resp with
        | none => ⟨[(file, StepEvent.extractFail)], file, [], [], LoopExit.returnedFalse⟩
        | some inner =>
          let reflected := pyStrip inner
          if reflected ≠ file then
            let r := reflLoop resp reflect fuel (i + 1) reflected
            ⟨(file, StepEvent.saved) :: r.trace, r.finalFile, reflected :: r.saves,
              LogEvent.notebookSaved :: r.log, r.exit⟩
          else
            ⟨[(file, StepEvent.nochangeStop)], file, [], [LogEvent.noChanges i],
              LoopExit.broke⟩

/-- Result of the part of the run from `create_client` on (lines 248-329):
client creation, first LLM call, extraction, initial save, reflection loop,
final return.  All exceptions here are inside the `try:` and are converted
to a `False` return with a logged traceback. -/
structure PhaseRes where
  result : Except PyExn Bool
  nbDir : NotebookDir
  log : List LogEvent
  saves : List Str
  trace : List (Str × StepEvent)

/-- The value returned after the reflection loop: `return False` for the
in-loop extraction failure, `return False` from the top-level handler when a
reflection call raised, and `osp.exists(notebook_file)` (line 329) when the
loop ended by exhaustion or a break. -/
def resultOfExit (ex : LoopExit) (fileExists : Bool) : Except PyExn Bool :=
  match ex with
  | LoopExit.raised => Except.ok false
  | LoopExit.returnedFalse => Except.ok false
  | LoopExit.completed => Except.ok fileExists
  | LoopExit.broke => Except.ok fileExists

def llmPhase (clientOk : Bool) (llmFirst : Except Unit Str)
    (reflect : Nat → Except Unit Str) (nb1 : NotebookDir) (n : Nat) : PhaseRes :=
  if clientOk then
    match llmFirst with
    | Except.error _ => ⟨Except.ok false, nb1, [LogEvent.topException], [], []⟩
    | Except.ok resp =>
      match reSearchMarkdown resp with
      | none => ⟨Except.ok false, nb1, [], [], []⟩
      | some inner =>
        let updated := pyStrip inner
        let nb2 := saveNotebook updated nb1
        let lr := reflLoop resp reflect n 0 updated
        let nbFinal : NotebookDir := { nb2 with labNotebook := some lr.finalFile }
        ⟨resultOfExit lr.exit nbFinal.labNotebook.isSome, nbFinal,
          LogEvent.notebookSaved :: (lr.log ++
            (if lr.exit = LoopExit.raised then [LogEvent.topException] else [])),
          updated :: lr.saves, lr.trace⟩
  else ⟨Except.ok false, nb1, [LogEvent.topException], [], []⟩

/-- The values formatted into the prompt (lines 250-257), computed from the
inputs gathered in lines 154-245. -/
def buildParts (e : Env) (figFiles : List Str) (nb1 : NotebookDir) : PromptParts :=
  { ideaText := loadIdeaText e
    baselineSummary := (loadSummary e.baselineSummary).1
    researchSummary := (loadSummary e.researchSummary).1
    ablationSummary := (loadSummary e.ablationSummary).1
    aggregatorCode := loadAggregator e.aggregator
    plotList := List.intercalate (", ".toList) (gatherPlotNames (some figFiles))
    currentNotebook := readNotebookFile nb1
    plotDescriptions := (plotDescriptionsStr e.vlm (gatherPlotNames (some figFiles))).1 }

/-- The JSON warnings printed while loading the three summary files. -/
def warnLogOf (e : Env) : List LogEvent :=
  (if (loadSummary e.baselineSummary).2 then
    [LogEvent.summaryWarning ("baseline_summary.json".toList)] else []) ++
  (if (loadSummary e.researchSummary).2 then
    [LogEvent.summaryWarning ("research_summary.json".toList)] else []) ++
  (if (loadSummary e.ablationSummary).2 then
    [LogEvent.summaryWarning ("ablation_summary.json".toList)] else [])

/-- The log entry of the VLM block's own exception handler. -/
def vlmLogOf (e : Env) (plots : List Str) : List LogEvent :=
  if (plotDescriptionsStr e.vlm plots).2 then [LogEvent.vlmException] else []

/-- The observable outcome of a `create_lab_notebook` call. -/
structure Outcome where
  result : Except PyExn Bool
  nbDir : NotebookDir
  log : List LogEvent
  promptInputs : Option PromptParts
  saves : List Str
  reflectionTrace : List (Str × StepEvent)

/-- The whole of `create_lab_notebook` (lines 133-334). -/
def createLabNotebook (e : Env) (n : Nat) : Outcome :=
  let nb0 := cleanupNotebookDir e.preNotebook
  match e.figures with
  | none =>
    { result := Except.error PyExn.fileNotFound, nbDir := nb0, log := [],
      promptInputs := none, saves := [], reflectionTrace := [] }
  | some figFiles =>
    let nb1 : NotebookDir := { nb0 with figuresCopied := some figFiles }
    let ph := llmPhase e.clientOk e.llmFirst e.llmReflect nb1 n
    { result := ph.result, nbDir := ph.nbDir,
      log := warnLogOf e ++ vlmLogOf e (gatherPlotNames (some figFiles)) ++ ph.log,
      promptInputs := some (buildParts e figFiles nb1),
      saves := ph.saves, reflectionTrace := ph.trace }

/-- Whether an `Except` result is a normal return. -/
def isOkResult : Except PyExn Bool → Bool
  | Except.ok _ => true
  | Except.error _ => false

/-- Placeholder record used as the `getD` default when indexing a loop
trace; its event is `raised`, which never marks a continuing iteration. -/
def dummyStep : Str × StepEvent := ([], StepEvent.raised)


lemma reflLoop_trace_length (resp : Str) (reflect : Nat → Except Unit Str) :
    ∀ (fuel i : Nat) (file : Str),
      (reflLoop resp reflect fuel i file).trace.length ≤ fuel := by
  intro fuel
  induction fuel with
  | zero =>
    intro i file
    exact Nat.le_refl 0
  | succ fuel ih =>
    intro i file
    simp only [reflLoop]
    split
    · simp only [List.length_singleton]
      omega
    · split
      · simp only [List.length_singleton]
        omega
      · split
        · simp only [List.length_singleton]
          omega
        · split
          · simp only [List.length_cons]
            exact Nat.succ_le_succ (ih _ _)
          · simp only [List.length_singleton]
            omega

lemma reflLoop_continue_saved (resp : Str) (reflect : Nat → Except Unit Str) :
    ∀ (fuel i : Nat) (file : Str) (j : Nat),
      j + 1 < (reflLoop resp reflect fuel i file).trace.length →
      ((reflLoop resp reflect fuel i file).trace.getD j dummyStep).2 =
        StepEvent.saved := by
  intro fuel
  induction fuel with
  | zero =>
    intro i file j hj
    exact absurd hj (by simp [reflLoop])
  | succ fuel ih =>
    intro i file j
    simp only [reflLoop]
    split
    · intro hj
      simp only [List.length_singleton] at hj
      omega
    · split
      · intro hj
        simp only [List.length_singleton] at hj
        omega
      · split
        · intro hj
          simp only [List.length_singleton] at hj
          omega
        · split
          · intro hj
            rcases j with _ | j
            · rfl
            · simp only [List.getD_cons_succ]
              simp only [List.length_cons] at hj
              exact ih _ _ j (by omega)
          · intro hj
            simp only [List.length_singleton] at hj
            omega

lemma reflLoop_saved_conditions (resp : Str) (reflect : Nat → Except Unit Str) :
    ∀ (fuel i : Nat) (file : Str) (j : Nat),
      ((reflLoop resp reflect fuel i file).trace.getD j dummyStep).2 =
        StepEvent.saved →
      ∃ rr, reflect (i + j) = Except.ok rr ∧
        containsSub sentinelDone rr = false ∧
        ∃ inner, reSearchMarkdown resp = some inner ∧
          pyStrip inner ≠
            ((reflLoop resp reflect fuel i file).trace.getD j dummyStep).1 := by
  intro fuel
  induction fuel with
  | zero =>
    intro i file j hj
    exact absurd hj (by simp [reflLoop, dummyStep])
  | succ fuel ih =>
    intro i file j
    simp only [reflLoop]
    split
    next u heq =>
      intro hj
      exfalso
      rcases j with _ | j
      · simp only [List.getD_cons_zero] at hj
        exact StepEvent.noConfusion hj
      · simp only [List.getD_cons_succ, List.getD_nil, dummyStep] at hj
        exact StepEvent.noConfusion hj
    next rresp heq =>
      split
      next hs =>
        intro hj
        exfalso
        rcases j with _ | j
        · simp only [List.getD_cons_zero] at hj
          exact StepEvent.noConfusion hj
        · simp only [List.getD_cons_succ, List.getD_nil, dummyStep] at hj
          exact StepEvent.noConfusion hj
      next hs =>
        split
        next hre =>
          intro hj
          exfalso
          rcases j with _ | j
          · simp only [List.getD_cons_zero] at hj
            exact StepEvent.noConfusion hj
          · simp only [List.getD_cons_succ, List.getD_nil, dummyStep] at hj
            exact StepEvent.noConfusion hj
        next inner hre =>
          split
          next hne =>
            intro hj
            rcases j with _ | j
            · refine ⟨rresp, ?_, ?_, inner, hre, ?_⟩
              · rw [Nat.add_zero]
                exact heq
              · cases hb : containsSub sentinelDone rresp with
                | false => rfl
                | true => exact absurd hb hs
              · simp only [List.getD_cons_zero]
                exact hne
            · simp only [List.getD_cons_succ] at hj ⊢
              have hrec := ih (i + 1) (pyStrip inner) j hj
              have harith : i + 1 + j = i + (j + 1) := by omega
              rw [harith] at hrec
              exact hrec
          next hne =>
            intro hj
            exfalso
            rcases j with _ | j
            · simp only [List.getD_cons_zero] at hj
              exact StepEvent.noConfusion hj
            · simp only [List.getD_cons_succ, List.getD_nil, dummyStep] at hj
              exact StepEvent.noConfusion hj

lemma reflLoop_no_change (resp : Str) (reflect : Nat → Except Unit Str)
    (inner : Str) (hre : reSearchMarkdown resp = some inner) :
    ∀ (fuel i : Nat),
      (reflLoop resp reflect fuel i (pyStrip inner)).finalFile = pyStrip inner ∧
      (reflLoop resp reflect fuel i (pyStrip inner)).saves = [] ∧
      ∀ rec ∈ (reflLoop resp reflect fuel i (pyStrip inner)).trace,
        rec.2 ≠ StepEvent.extractFail ∧ rec.2 ≠ StepEvent.saved := by
  intro fuel i
  match fuel with
  | 0 =>
    refine ⟨rfl, rfl, ?_⟩
    intro rec hrec
    exact absurd hrec (by simp [reflLoop])
  | fuel + 1 =>
    simp only [reflLoop]
    split
    · refine ⟨rfl, rfl, ?_⟩
      intro rec hrec
      simp only [List.mem_singleton] at hrec
      rw [hrec]
      exact ⟨fun h => StepEvent.noConfusion h, fun h => StepEvent.noConfusion h⟩
    · split
      · refine ⟨rfl, rfl, ?_⟩
        intro rec hrec
        simp only [List.mem_singleton] at hrec
        rw [hrec]
        exact ⟨fun h => StepEvent.noConfusion h, fun h => StepEvent.noConfusion h⟩
      · split
        next hre2 =>
          rw [hre] at hre2
          exact absurd hre2 (fun h => Option.noConfusion h)
        next inner2 hre2 =>
          rw [hre] at hre2
          have hinner : inner2 = inner := by
            have := Option.some.inj hre2
            exact this.symm
          subst hinner
          split
          next hne => exact absurd rfl hne
          next hne =>
            refine ⟨rfl, rfl, ?_⟩
            intro rec hrec
            simp only [List.mem_singleton] at hrec
            rw [hrec]
            exact ⟨fun h => StepEvent.noConfusion h, fun h => StepEvent.noConfusion h⟩

lemma cons_getLast?_eq {α : Type} (a : α) (l : List α) :
    (a :: l).getLast? = some ((l.getLast?).getD a) := by
  induction l generalizing a with
  | nil => rfl
  | cons b m ih =>
    rw [List.getLast?_cons_cons, ih b]
    rfl

lemma reflLoop_finalFile (resp : Str) (reflect : Nat → Except Unit Str) :
    ∀ (fuel i : Nat) (file : Str),
      (reflLoop resp reflect fuel i file).finalFile =
        ((reflLoop resp reflect fuel i file).saves.getLast?).getD file := by
  intro fuel
  induction fuel with
  | zero =>
    intro i file
    rfl
  | succ fuel ih =>
    intro i file
    simp only [reflLoop]
    split
    · rfl
    · split
      · rfl
      · split
        · rfl
        · split
          next hne =>
            rw [ih _ _, cons_getLast?_eq]
            rfl
          next hne => rfl

/-- The notebook folder state right after cleanup and the figures copy. -/
def nbStart (l : List Str) : NotebookDir :=
  { labNotebook := none, figuresCopied := some l }

lemma cleanup_eq (pre : Option Str) :
    cleanupNotebookDir pre = { labNotebook := none, figuresCopied := none } := by
  cases pre with
  | none => rfl
  | some c => rfl

lemma resultOfExit_isOk (ex : LoopExit) (b : Bool) :
    isOkResult (resultOfExit ex b) = true := by
  cases ex with
  | completed => rfl
  | broke => rfl
  | returnedFalse => rfl
  | raised => rfl

lemma llmPhase_result_isOk (co : Bool) (lf : Except Unit Str)
    (rf : Nat → Except Unit Str) (nb : NotebookDir) (n : Nat) :
    isOkResult (llmPhase co lf rf nb n).result = true := by
  cases co with
  | false => rfl
  | true =>
    cases lf with
    | error u => rfl
    | ok resp =>
      simp only [llmPhase]
      cases hre : reSearchMarkdown resp with
      | none => rfl
      | some inner => exact resultOfExit_isOk _ _

lemma llmPhase_error_log (co : Bool) (rf : Nat → Except Unit Str)
    (nb : NotebookDir) (n : Nat) :
    (llmPhase co (Except.error ()) rf nb n).result = Except.ok false ∧
    (llmPhase co (Except.error ()) rf nb n).log = [LogEvent.topException] := by
  cases co with
  | false => exact ⟨rfl, rfl⟩
  | true => exact ⟨rfl, rfl⟩

lemma llmPhase_labNotebook_getLast (co : Bool) (lf : Except Unit Str)
    (rf : Nat → Except Unit Str) (nb : NotebookDir) (n : Nat)
    (hnb : nb.labNotebook = none) :
    (llmPhase co lf rf nb n).nbDir.labNotebook =
      (llmPhase co lf rf nb n).saves.getLast? := by
  cases co with
  | false =>
    show nb.labNotebook = ([] : List Str).getLast?
    rw [hnb]
    rfl
  | true =>
    cases lf with
    | error u =>
      show nb.labNotebook = ([] : List Str).getLast?
      rw [hnb]
      rfl
    | ok resp =>
      simp only [llmPhase]
      cases hre : reSearchMarkdown resp with
      | none =>
        show nb.labNotebook = ([] : List Str).getLast?
        rw [hnb]
        rfl
      | some inner =>
        show some ((reflLoop resp rf n 0 (pyStrip inner)).finalFile) =
          ((pyStrip inner :: (reflLoop resp rf n 0 (pyStrip inner)).saves).getLast?)
        rw [cons_getLast?_eq, reflLoop_finalFile resp rf n 0 (pyStrip inner)]

lemma createLabNotebook_some (e : Env) (n : Nat) (l : List Str)
    (hfig : e.figures = some l) :
    createLabNotebook e n =
      { result := (llmPhase e.clientOk e.llmFirst e.llmReflect (nbStart l) n).result,
        nbDir := (llmPhase e.clientOk e.llmFirst e.llmReflect (nbStart l) n).nbDir,
        log := warnLogOf e ++ vlmLogOf e (gatherPlotNames (some l)) ++
          (llmPhase e.clientOk e.llmFirst e.llmReflect (nbStart l) n).log,
        promptInputs := some (buildParts e l (nbStart l)),
        saves := (llmPhase e.clientOk e.llmFirst e.llmReflect (nbStart l) n).saves,
        reflectionTrace :=
          (llmPhase e.clientOk e.llmFirst e.llmReflect (nbStart l) n).trace } := by
  simp only [createLabNotebook, hfig, cleanup_eq, nbStart]


/-!
Claim theorems.  Concrete environments used by witnesses and
counterexamples follow; `envBase` has the figures directory present (empty)
and every optional input missing.
-/

/-- A concrete environment: figures directory present and empty, optional
inputs missing, collaborators well-behaved. -/
def envBase : Env :=
  { preNotebook := none
    figures := some []
    researchIdea := none
    ideaMd := none
    aggregator := none
    baselineSummary := none
    researchSummary := none
    ablationSummary := none
    vlm := Except.ok (fun _ => none)
    clientOk := true
    llmFirst := Except.ok []
    llmReflect := fun _ => Except.ok [] }

/-- Environment with the figures directory absent. -/
def envNoFigures : Env := { envBase with figures := none }

/-- Environment whose first LLM call raises. -/
def envLlmRaise : Env := { envBase with llmFirst := Except.error () }

/-- C1, amended: once the setup before the `try:` (notebook cleanup and the
figures copy) has succeeded, the call always returns a boolean, and a
raising LLM call yields a `False` return with a logged traceback. -/
theorem c1_exceptions_caught_after_setup (e : Env) (n : Nat) (l : List Str)
    (hfig : e.figures = some l) :
    isOkResult (createLabNotebook e n).result = true ∧
    (e.llmFirst = Except.error () →
      (createLabNotebook e n).result = Except.ok false ∧
      LogEvent.topException ∈ (createLabNotebook e n).log) := by
  rw [createLabNotebook_some e n l hfig]
  constructor
  · exact llmPhase_result_isOk _ _ _ _ _
  · intro herr
    rw [herr]
    refine ⟨(llmPhase_error_log e.clientOk e.llmReflect (nbStart l) n).1, ?_⟩
    show LogEvent.topException ∈ warnLogOf e ++ vlmLogOf e (gatherPlotNames (some l)) ++
      (llmPhase e.clientOk (Except.error ()) e.llmReflect (nbStart l) n).log
    rw [(llmPhase_error_log e.clientOk e.llmReflect (nbStart l) n).2]
    simp [List.mem_append]

/-- Witness for C1 at a concrete environment whose first LLM call raises. -/
theorem c1_witness :
    isOkResult (createLabNotebook envLlmRaise 3).result = true ∧
    ((createLabNotebook envLlmRaise 3).result = Except.ok false ∧
      LogEvent.topException ∈ (createLabNotebook envLlmRaise 3).log) :=
  ⟨(c1_exceptions_caught_after_setup envLlmRaise 3 [] rfl).1,
    (c1_exceptions_caught_after_setup envLlmRaise 3 [] rfl).2 rfl⟩

/-- Counterexample to C1 as stated: with the figures directory missing, the
`shutil.copytree` at line 151 runs before the `try:` and its exception
propagates out of `create_lab_notebook` instead of becoming `False`. -/
theorem c1_counterexample :
    (createLabNotebook envNoFigures 3).result = Except.error PyExn.fileNotFound := rfl

/-- Counterexample to C2 as stated: a missing figures directory crashes the
call (no empty-content substitution), and a missing aggregator script is
replaced by the non-empty placeholder text, not by empty content. -/
theorem c2_counterexample :
    (createLabNotebook envNoFigures 3).result = Except.error PyExn.fileNotFound ∧
    (createLabNotebook envNoFigures 3).promptInputs = none ∧
    (createLabNotebook envBase 3).promptInputs.map PromptParts.aggregatorCode =
      some ("No aggregator script found.".toList) :=
  ⟨rfl, rfl, rfl⟩

/-- C2, amended: with the figures directory present, missing
`research_idea.md`/`idea.md` and missing summary files yield empty content
and no crash; a missing `auto_plot_aggregator.py` yields the placeholder
text `"No aggregator script found."` rather than empty content. -/
theorem c2_missing_inputs_defaults (e : Env) (n : Nat) (l : List Str)
    (hfig : e.figures = some l) (hri : e.researchIdea = none)
    (him : e.ideaMd = none) (hb : e.baselineSummary = none)
    (hr : e.researchSummary = none) (ha : e.ablationSummary = none)
    (hagg : e.aggregator = none) :
    (createLabNotebook e n).promptInputs.map PromptParts.ideaText = some [] ∧
    (createLabNotebook e n).promptInputs.map PromptParts.baselineSummary =
      some JsonVal.emptyObj ∧
    (createLabNotebook e n).promptInputs.map PromptParts.researchSummary =
      some JsonVal.emptyObj ∧
    (createLabNotebook e n).promptInputs.map PromptParts.ablationSummary =
      some JsonVal.emptyObj ∧
    (createLabNotebook e n).promptInputs.map PromptParts.aggregatorCode =
      some ("No aggregator script found.".toList) ∧
    isOkResult (createLabNotebook e n).result = true := by
  rw [createLabNotebook_some e n l hfig]
  refine ⟨?_, ?_, ?_, ?_, ?_, llmPhase_result_isOk _ _ _ _ _⟩
  · simp [buildParts, loadIdeaText, hri, him]
  · simp [buildParts, loadSummary, hb]
  · simp [buildParts, loadSummary, hr]
  · simp [buildParts, loadSummary, ha]
  · simp [buildParts, loadAggregator, hagg]

/-- Witness for C2 (amended) at a concrete environment with every optional
input missing. -/
theorem c2_witness :
    (createLabNotebook envBase 3).promptInputs.map PromptParts.ideaText = some [] ∧
    (createLabNotebook envBase 3).promptInputs.map PromptParts.baselineSummary =
      some JsonVal.emptyObj ∧
    (createLabNotebook envBase 3).promptInputs.map PromptParts.researchSummary =
      some JsonVal.emptyObj ∧
    (createLabNotebook envBase 3).promptInputs.map PromptParts.ablationSummary =
      some JsonVal.emptyObj ∧
    (createLabNotebook envBase 3).promptInputs.map PromptParts.aggregatorCode =
      some ("No aggregator script found.".toList) ∧
    isOkResult (createLabNotebook envBase 3).result = true :=
  c2_missing_inputs_defaults envBase 3 [] rfl rfl rfl rfl rfl rfl rfl

/-- Environment exhibiting the line-313 bug: the first response carries
block A, the reflection response carries a different block B. -/
def envBugDemo : Env :=
  { envBase with
    llmFirst := Except.ok ("```markdown\nA\n```".toList)
    llmReflect := fun _ => Except.ok ("```markdown\nB\n```".toList) }

/-- C3 (code bug at line 313): the reflection pass searches `response` (the
first LLM response) instead of `reflection_response`, so the content saved
and compared in every pass comes from the first response.  Here the
reflection response contains the distinct block B, yet the run keeps A,
never saves B, and stops via the no-change comparison. -/
theorem c3_reflection_ignores_reflection_response :
    (createLabNotebook envBugDemo 3).saves = ["A".toList] ∧
    (createLabNotebook envBugDemo 3).nbDir.labNotebook = some ("A".toList) ∧
    (createLabNotebook envBugDemo 3).reflectionTrace =
      [("A".toList, StepEvent.nochangeStop)] ∧
    reSearchMarkdown ("```markdown\nB\n```".toList) = some ("\nB\n".toList) :=
  ⟨rfl, rfl, rfl, rfl⟩


/-- A reflection response that lets the loop continue: the call returned
normally and the sentinel phrase does not occur in it. -/
def okWithoutSentinel : Except Unit Str → Bool
  | Except.ok rr => !(containsSub sentinelDone rr)
  | Except.error _ => false

/-- C4: the reflection loop of `create_lab_notebook` performs at most `n`
iterations, and every iteration that is followed by another one passed all
stop checks: its reflection response returned without the sentinel phrase,
and the extracted notebook differed from the current file content. -/
theorem c4_reflection_loop_bounds (resp : Str) (reflect : Nat → Except Unit Str)
    (n : Nat) (file : Str) :
    (reflLoop resp reflect n 0 file).trace.length ≤ n ∧
    (∀ j, j + 1 < (reflLoop resp reflect n 0 file).trace.length →
      okWithoutSentinel (reflect j) = true ∧
      extractNotebook resp ≠ none ∧
      extractNotebook resp ≠
        some (((reflLoop resp reflect n 0 file).trace.getD j dummyStep).1)) := by
  refine ⟨reflLoop_trace_length resp reflect n 0 file, ?_⟩
  intro j hj
  have hsaved := reflLoop_continue_saved resp reflect n 0 file j hj
  have h := reflLoop_saved_conditions resp reflect n 0 file j hsaved
  rw [Nat.zero_add] at h
  obtain ⟨rr, hrr, hsent, inner, hre, hne⟩ := h
  refine ⟨?_, ?_, ?_⟩
  · rw [hrr, okWithoutSentinel, hsent]
    rfl
  · rw [extractNotebook, hre]
    intro hcon
    exact Option.noConfusion hcon
  · rw [extractNotebook, hre]
    intro hcon
    exact hne (Option.some.inj hcon)

/-- Data for the C4 witness: a first response with block A, an initial file
content different from A, and reflection responses without the sentinel. -/
def resp4 : Str := "```markdown A```".toList

def reflect4 : Nat → Except Unit Str := fun _ => Except.ok ("continue".toList)

/-- Witness for C4: a run that saves in the first iteration and stops by
the no-change check in the second, within the bound of 3. -/
theorem c4_witness :
    (reflLoop resp4 reflect4 3 0 ("X".toList)).trace.length ≤ 3 ∧
    (okWithoutSentinel (reflect4 0) = true ∧
      extractNotebook resp4 ≠ none ∧
      extractNotebook resp4 ≠
        some (((reflLoop resp4 reflect4 3 0 ("X".toList)).trace.getD 0 dummyStep).1)) :=
  ⟨(c4_reflection_loop_bounds resp4 reflect4 3 ("X".toList)).1,
    (c4_reflection_loop_bounds resp4 reflect4 3 ("X".toList)).2 0 (by decide)⟩

/-- C5: if a response contains a fenced markdown block, the extraction
returns exactly the stripped inner content of the first such block; and if
the first response contains no block, `create_lab_notebook` returns
`False`. -/
theorem c5_extraction (s : Str) (e : Env) (n : Nat) (l : List Str) (r : Str) :
    (containsFencedBlock s →
      extractNotebook s = (firstBlockInner s).map pyStrip ∧
      (firstBlockInner s).isSome = true) ∧
    (e.figures = some l → e.llmFirst = Except.ok r → reSearchMarkdown r = none →
      (createLabNotebook e n).result = Except.ok false) := by
  constructor
  · intro hblock
    refine ⟨?_, firstBlock_isSome hblock⟩
    rw [extractNotebook, reSearch_eq_firstBlock]
  · intro hfig hfirst hre
    rw [createLabNotebook_some e n l hfig]
    show (llmPhase e.clientOk e.llmFirst e.llmReflect (nbStart l) n).result =
      Except.ok false
    rw [hfirst]
    cases hco : e.clientOk with
    | false => rfl
    | true =>
      simp only [llmPhase, hre]
      rfl

/-- Data for the C5 witness. -/
def s5 : Str := "x ```markdown hello ``` y".toList

def r5 : Str := "no fenced block here".toList

/-- Environment whose first response has no fenced markdown block. -/
def envNoBlock : Env := { envBase with llmFirst := Except.ok r5 }

/-- Witness for C5 at a concrete blocked/blockless pair of responses. -/
theorem c5_witness :
    (extractNotebook s5 = (firstBlockInner s5).map pyStrip ∧
      (firstBlockInner s5).isSome = true) ∧
    (createLabNotebook envNoBlock 3).result = Except.ok false :=
  ⟨(c5_extraction s5 envNoBlock 3 [] r5).1 ⟨2, 20, by decide, by decide, by decide⟩,
    (c5_extraction s5 envNoBlock 3 [] r5).2 rfl rfl (by decide)⟩

lemma llmPhase_reached_loop (resp inner : Str) (rf : Nat → Except Unit Str)
    (nb : NotebookDir) (n : Nat) (hre : reSearchMarkdown resp = some inner) :
    llmPhase true (Except.ok resp) rf nb n =
      ⟨resultOfExit (reflLoop resp rf n 0 (pyStrip inner)).exit true,
        { saveNotebook (pyStrip inner) nb with
            labNotebook := some (reflLoop resp rf n 0 (pyStrip inner)).finalFile },
        LogEvent.notebookSaved :: ((reflLoop resp rf n 0 (pyStrip inner)).log ++
          (if (reflLoop resp rf n 0 (pyStrip inner)).exit = LoopExit.raised
            then [LogEvent.topException] else [])),
        pyStrip inner :: (reflLoop resp rf n 0 (pyStrip inner)).saves,
        (reflLoop resp rf n 0 (pyStrip inner)).trace⟩ := by
  simp [llmPhase, hre]

/-- C6: whenever the run reaches the reflection loop (first response had a
block), the file keeps the stripped block of the first response: the only
save is the initial one, no reflection iteration saves, and the in-loop
extraction-failure branch is never taken. -/
theorem c6_reflection_never_changes_file (e : Env) (n : Nat) (l : List Str)
    (resp inner : Str) (hfig : e.figures = some l) (hco : e.clientOk = true)
    (hfirst : e.llmFirst = Except.ok resp)
    (hre : reSearchMarkdown resp = some inner) :
    (createLabNotebook e n).nbDir.labNotebook = some (pyStrip inner) ∧
    (createLabNotebook e n).saves = [pyStrip inner] ∧
    (∀ rec ∈ (createLabNotebook e n).reflectionTrace,
      rec.2 ≠ StepEvent.extractFail ∧ rec.2 ≠ StepEvent.saved) := by
  rw [createLabNotebook_some e n l hfig, hfirst, hco,
    llmPhase_reached_loop resp inner e.llmReflect (nbStart l) n hre]
  have hnc := reflLoop_no_change resp e.llmReflect inner hre n 0
  refine ⟨?_, ?_, ?_⟩
  · show some ((reflLoop resp e.llmReflect n 0 (pyStrip inner)).finalFile) =
      some (pyStrip inner)
    rw [hnc.1]
  · show pyStrip inner :: (reflLoop resp e.llmReflect n 0 (pyStrip inner)).saves =
      [pyStrip inner]
    rw [hnc.2.1]
  · show ∀ rec ∈ (reflLoop resp e.llmReflect n 0 (pyStrip inner)).trace,
      rec.2 ≠ StepEvent.extractFail ∧ rec.2 ≠ StepEvent.saved
    exact hnc.2.2

/-- Environment for the C6 witness: the first response carries one block. -/
def envC6 : Env := { envBase with llmFirst := Except.ok ("```markdown hi```".toList) }

/-- Witness for C6 at a concrete environment. -/
theorem c6_witness :
    (createLabNotebook envC6 3).nbDir.labNotebook = some (pyStrip (" hi".toList)) ∧
    (createLabNotebook envC6 3).saves = [pyStrip (" hi".toList)] :=
  ⟨(c6_reflection_never_changes_file envC6 3 [] ("```markdown hi```".toList)
      (" hi".toList) rfl rfl rfl (by decide)).1,
    (c6_reflection_never_changes_file envC6 3 [] ("```markdown hi```".toList)
      (" hi".toList) rfl rfl rfl (by decide)).2.1⟩

/-- C7: the notebook folder is deleted and recreated before any read, so
the existence check on `lab_notebook.md` fails and the current-notebook
text substituted into the prompt is always empty: a pre-existing notebook
is never used. -/
theorem c7_preexisting_notebook_ignored (e : Env) (n : Nat) (l : List Str)
    (hfig : e.figures = some l) :
    (cleanupNotebookDir e.preNotebook).labNotebook = none ∧
    (createLabNotebook e n).promptInputs.map PromptParts.currentNotebook =
      some [] := by
  refine ⟨?_, ?_⟩
  · rw [cleanup_eq]
  · rw [createLabNotebook_some e n l hfig]
    simp [buildParts, readNotebookFile, nbStart]

/-- Environment with a pre-existing notebook file. -/
def envOldNotebook : Env := { envBase with preNotebook := some ("OLD".toList) }

/-- Witness for C7: even with a pre-existing notebook, the prompt gets an
empty current notebook. -/
theorem c7_witness :
    (cleanupNotebookDir envOldNotebook.preNotebook).labNotebook = none ∧
    (createLabNotebook envOldNotebook 3).promptInputs.map
      PromptParts.currentNotebook = some [] :=
  c7_preexisting_notebook_ignored envOldNotebook 3 [] rfl


/-- C8: for each of the three summary files, a present-but-malformed file
yields the empty object plus a logged warning, a missing file yields the
empty object, and the run continues to a normal boolean return. -/
theorem c8_summary_defaults (e : Env) (n : Nat) (l : List Str)
    (hfig : e.figures = some l) :
    loadSummary none = (JsonVal.emptyObj, false) ∧
    loadSummary (some none) = (JsonVal.emptyObj, true) ∧
    (e.baselineSummary = some none →
      (createLabNotebook e n).promptInputs.map PromptParts.baselineSummary =
        some JsonVal.emptyObj ∧
      LogEvent.summaryWarning ("baseline_summary.json".toList) ∈
        (createLabNotebook e n).log) ∧
    (e.researchSummary = some none →
      (createLabNotebook e n).promptInputs.map PromptParts.researchSummary =
        some JsonVal.emptyObj ∧
      LogEvent.summaryWarning ("research_summary.json".toList) ∈
        (createLabNotebook e n).log) ∧
    (e.ablationSummary = some none →
      (createLabNotebook e n).promptInputs.map PromptParts.ablationSummary =
        some JsonVal.emptyObj ∧
      LogEvent.summaryWarning ("ablation_summary.json".toList) ∈
        (createLabNotebook e n).log) ∧
    (e.baselineSummary = none →
      (createLabNotebook e n).promptInputs.map PromptParts.baselineSummary =
        some JsonVal.emptyObj) ∧
    (e.researchSummary = none →
      (createLabNotebook e n).promptInputs.map PromptParts.researchSummary =
        some JsonVal.emptyObj) ∧
    (e.ablationSummary = none →
      (createLabNotebook e n).promptInputs.map PromptParts.ablationSummary =
        some JsonVal.emptyObj) ∧
    isOkResult (createLabNotebook e n).result = true := by
  rw [createLabNotebook_some e n l hfig]
  refine ⟨rfl, rfl, ?_, ?_, ?_, ?_, ?_, ?_, llmPhase_result_isOk _ _ _ _ _⟩
  · intro hb
    refine ⟨by simp [buildParts, loadSummary, hb], ?_⟩
    simp [warnLogOf, loadSummary, hb, List.mem_append]
  · intro hr
    refine ⟨by simp [buildParts, loadSummary, hr], ?_⟩
    simp [warnLogOf, loadSummary, hr, List.mem_append]
  · intro ha
    refine ⟨by simp [buildParts, loadSummary, ha], ?_⟩
    simp [warnLogOf, loadSummary, ha, List.mem_append]
  · intro hb
    simp [buildParts, loadSummary, hb]
  · intro hr
    simp [buildParts, loadSummary, hr]
  · intro ha
    simp [buildParts, loadSummary, ha]

/-- Environment whose three summary files exist but hold invalid JSON. -/
def envBadJson : Env :=
  { envBase with
    baselineSummary := some none
    researchSummary := some none
    ablationSummary := some none }

/-- Witness for C8: malformed files at a concrete environment give empty
objects and logged warnings; a missing file gives an empty object. -/
theorem c8_witness :
    ((createLabNotebook envBadJson 3).promptInputs.map PromptParts.baselineSummary =
      some JsonVal.emptyObj ∧
      LogEvent.summaryWarning ("baseline_summary.json".toList) ∈
        (createLabNotebook envBadJson 3).log) ∧
    ((createLabNotebook envBadJson 3).promptInputs.map PromptParts.ablationSummary =
      some JsonVal.emptyObj ∧
      LogEvent.summaryWarning ("ablation_summary.json".toList) ∈
        (createLabNotebook envBadJson 3).log) ∧
    (createLabNotebook envBase 3).promptInputs.map PromptParts.researchSummary =
      some JsonVal.emptyObj ∧
    isOkResult (createLabNotebook envBadJson 3).result = true :=
  ⟨(c8_summary_defaults envBadJson 3 [] rfl).2.2.1 rfl,
    (c8_summary_defaults envBadJson 3 [] rfl).2.2.2.2.1 rfl,
    (c8_summary_defaults envBase 3 [] rfl).2.2.2.2.2.2.1 rfl,
    (c8_summary_defaults envBadJson 3 [] rfl).2.2.2.2.2.2.2.2⟩

/-- C9: the plot list placed in the prompt is exactly the figure filenames
ending in `.png` (case-insensitively), in listing order, and the
descriptions string pairs each plot name with its own description in the
same order. -/
theorem c9_plot_list_and_descriptions (e : Env) (n : Nat) (l : List Str)
    (reviews : Str → Option (Option Str)) (hfig : e.figures = some l)
    (hvlm : e.vlm = Except.ok reviews) :
    (createLabNotebook e n).promptInputs.map PromptParts.plotList =
      some (List.intercalate (", ".toList) (l.filter endsWithPngCI)) ∧
    (createLabNotebook e n).promptInputs.map PromptParts.plotDescriptions =
      some (List.intercalate ("\n".toList)
        ((l.filter endsWithPngCI).map
          (fun f => f ++ (": ".toList) ++ descFor reviews f))) ∧
    (∀ f, f ∈ l.filter endsWithPngCI ↔ f ∈ l ∧ endsWithPngCI f = true) ∧
    (∀ f, endsWithPngCI f = true ↔
      ∃ st, f.map Char.toLower = st ++ (".png".toList)) := by
  rw [createLabNotebook_some e n l hfig]
  refine ⟨?_, ?_, ?_, ?_⟩
  · simp [buildParts, gatherPlotNames]
  · simp [buildParts, gatherPlotNames, plotDescriptionsStr, hvlm]
  · intro f
    simp [List.mem_filter]
  · intro f
    constructor
    · intro h
      rw [endsWithPngCI, List.isSuffixOf] at h
      obtain ⟨t, ht⟩ := (isPrefixOf_append_iff _ _).1 h
      refine ⟨t.reverse, ?_⟩
      have hrev := congrArg List.reverse ht
      rw [List.reverse_reverse, List.reverse_append, List.reverse_reverse] at hrev
      exact hrev
    · rintro ⟨st, hst⟩
      rw [endsWithPngCI, List.isSuffixOf]
      refine (isPrefixOf_append_iff _ _).2 ⟨st.reverse, ?_⟩
      rw [hst, List.reverse_append]

/-- Figure listing and review oracle for the C9 witness. -/
def figs9 : List Str := ["a.png".toList, "notes.txt".toList, "B.PNG".toList]

def reviews9 : Str → Option (Option Str) :=
  fun f => if f = "a.png".toList then some (some ("desc-a".toList)) else none

/-- Environment for the C9 witness. -/
def envPlots : Env :=
  { envBase with figures := some figs9, vlm := Except.ok reviews9 }

/-- Witness for C9 at a concrete directory listing with a non-png file and
a case-variant png file. -/
theorem c9_witness :
    (createLabNotebook envPlots 3).promptInputs.map PromptParts.plotList =
      some (List.intercalate (", ".toList) (figs9.filter endsWithPngCI)) ∧
    (createLabNotebook envPlots 3).promptInputs.map PromptParts.plotDescriptions =
      some (List.intercalate ("\n".toList)
        ((figs9.filter endsWithPngCI).map
          (fun f => f ++ (": ".toList) ++ descFor reviews9 f))) :=
  ⟨(c9_plot_list_and_descriptions envPlots 3 figs9 reviews9 rfl rfl).1,
    (c9_plot_list_and_descriptions envPlots 3 figs9 reviews9 rfl rfl).2.1⟩

/-- C10: the notebook is persisted to the single file
`notebook/lab_notebook.md`: a save overwrites exactly that file with the
complete new content and leaves the rest of the folder unchanged, and at
the end of any run the file holds exactly the last saved content (absent
when nothing was saved). -/
theorem c10_saves_overwrite_single_file (c : Str) (d : NotebookDir)
    (e : Env) (n : Nat) :
    (saveNotebook c d).labNotebook = some c ∧
    (saveNotebook c d).figuresCopied = d.figuresCopied ∧
    (createLabNotebook e n).nbDir.labNotebook =
      (createLabNotebook e n).saves.getLast? := by
  refine ⟨rfl, rfl, ?_⟩
  cases hfig : e.figures with
  | none =>
    simp [createLabNotebook, hfig, cleanup_eq]
  | some l =>
    rw [createLabNotebook_some e n l hfig]
    exact llmPhase_labNotebook_getLast e.clientOk e.llmFirst e.llmReflect
      (nbStart l) n rfl

end LabNotebook
